import Mathlib

/-!
Shallow embedding of the GlobalStoreBridge of react-chatgpt-apps
(src/src/hooks.ts): the per-key subscribe / getSnapshot pair built by
useOpenAiGlobal, the SetGlobalsEvent listener handleSetGlobal, and the
refreshTool delegation to window.openai.callTool.
-/

/-- The fixed key set of the global state bag, from the OpenAiGlobals type
of the repository (declared in src/types.ts, documented in the README). -/
inductive Key where
  | theme
  | userAgent
  | locale
  | maxHeight
  | displayMode
  | safeArea
  | toolInput
  | toolOutput
  | toolResponseMetadata
  | widgetState
deriving DecidableEq, Repr, Fintype

/-- A JavaScript value as the bridge observes it.  undef is the JavaScript
undefined sentinel (distinct from null).  Arbitrary structured values are
modelled by an opaque reference identity obj id, so equality of obj values
is reference equality. -/
inductive JsValue where
  | undef
  | null
  | bool (b : Bool)
  | num (n : Int)
  | str (s : String)
  | obj (id : Nat)
deriving DecidableEq, Repr

/-- A JavaScript runtime failure: the TypeError raised by a property access
on undefined or by calling a missing method, or an arbitrary thrown value
(for host rejections). -/
inductive JsError where
  | typeError
  | thrown (v : JsValue)
deriving DecidableEq, Repr

/-- A partial mapping from keys to values: both the data slots of
window.openai and the partial snapshot event.detail.globals carried by a
SetGlobalsEvent.  none means the property is absent; some JsValue.undef
means the property is present and explicitly undefined. -/
def Globals : Type := Key → Option JsValue

/-- JavaScript bracket access g[k]: an absent property reads as undefined,
indistinguishable from a property explicitly set to undefined. -/
def jsGet (g : Globals) (k : Key) : JsValue :=
  (g k).getD JsValue.undef

/-- The listener body installed by useOpenAiGlobal (src/src/hooks.ts lines
13-20): reads event.detail.globals[key]; when that value is undefined it
returns without action, otherwise it invokes onChange.  The result is
whether onChange fires. -/
def handleSetGlobal (key : Key) (globals : Globals) : Bool :=
  match jsGet globals key with
  | JsValue.undef => false
  | _ => true

/-- The window.openai host object: its data slots (the global state bag)
and its callTool method, which may be missing. -/
structure OpenAi where
  bag : Globals
  callTool : Option (String → JsValue → Except JsError JsValue)

/-- A listener registration made by one subscribe(key) call: the listener
identity (addEventListener/removeEventListener match on the exact function
object, modelled by a numeric id) and the key it filters on. -/
structure Subscriber where
  id : Nat
  key : Key
deriving DecidableEq, Repr

/-- The state the bridge interacts with: window.openai (possibly absent,
i.e. pre-initialization) and the SetGlobalsEvent listeners currently
registered on window. -/
structure BridgeState where
  openai : Option OpenAi
  listeners : List Subscriber
  nextId : Nat

/-- Well-formedness invariant of the listener registry: every registered
listener was handed out before the next fresh id. -/
def Wf (st : BridgeState) : Prop :=
  ∀ l ∈ st.listeners, l.id < st.nextId

/-- The subscribe closure of useOpenAiGlobal (src/src/hooks.ts lines 12-29):
installs one handleSetGlobal listener for the given key via
window.addEventListener and returns the fresh listener id, which the
returned unsubscribe closure later removes. -/
def subscribe (k : Key) (st : BridgeState) : BridgeState × Nat :=
  ({ st with
      listeners := st.listeners ++ [⟨st.nextId, k⟩]
      nextId := st.nextId + 1 },
   st.nextId)

/-- The unsubscribe closure returned by subscribe (src/src/hooks.ts lines
26-28): window.removeEventListener removes exactly the listener that was
installed, identified by its function identity. -/
def unsubscribe (i : Nat) (st : BridgeState) : BridgeState :=
  { st with listeners := st.listeners.filter (fun l => l.id != i) }

/-- The getSnapshot closure of useOpenAiGlobal (src/src/hooks.ts line 30):
() => window.openai[key].  When window.openai is undefined the property
access itself throws a TypeError; otherwise the stored value is returned
as-is. -/
def getSnapshot (openai : Option OpenAi) (k : Key) : Except JsError JsValue :=
  match openai with
  | none => Except.error JsError.typeError
  | some o => Except.ok (jsGet o.bag k)

/-- The ids of the listeners whose onChange fires when a SetGlobalsEvent
carrying the partial snapshot g is dispatched: exactly those whose
handleSetGlobal body reaches onChange. -/
def notified (listeners : List Subscriber) (g : Globals) : List Nat :=
  (listeners.filter (fun l => handleSetGlobal l.key g)).map Subscriber.id

/-- Modelled from the spec: the host-side application of an announcement to
the bag.  The host runtime (not part of this repository) assigns every key
present in the partial snapshot before dispatching the event; the spec
states that between delivery and a subsequent read the bag already
reflects the announced values, absent keys staying unchanged. -/
def applyGlobals (g : Globals) (bag : Globals) : Globals :=
  fun k => match g k with
  | some v => some v
  | none => bag k

/-- Delivery of one SetGlobalsEvent: the host updates the bag with the
announced entries and the dispatched event runs every registered listener,
collecting the ids whose onChange fired. -/
def deliver (g : Globals) (st : BridgeState) : BridgeState × List Nat :=
  ({ st with openai := st.openai.map (fun o => { o with bag := applyGlobals g o.bag }) },
   notified st.listeners g)

/-- refreshTool (src/src/hooks.ts lines 46-48):
await window.openai?.callTool(name, args).  Optional chaining guards only
window.openai itself: when it is absent the whole expression is undefined
and the function resolves; when window.openai exists but callTool is
missing, invoking it throws a TypeError; otherwise the call is delegated
and awaited and its result payload discarded.  The second component is the
trace of delegated host invocations (name and args actually passed). -/
def refreshTool (openai : Option OpenAi) (name : String) (args : JsValue) :
    Except JsError Unit × List (String × JsValue) :=
  match openai with
  | none => (Except.ok (), [])
  | some o =>
    match o.callTool with
    | none => (Except.error JsError.typeError, [])
    | some f => ((f name args).map (fun _ => ()), [(name, args)])

/- Concrete objects used by witnesses and counterexamples. -/

/-- A bag with every slot absent. -/
def emptyBag : Globals := fun _ => none

/-- A host object with an empty bag and no callTool method. -/
def openai0 : OpenAi := { bag := emptyBag, callTool := none }

/-- Initial bridge state: host present, no listeners registered. -/
def st0 : BridgeState := { openai := some openai0, listeners := [], nextId := 0 }

/-- An announcement whose snapshot contains an entry only for locale. -/
def gLoc : Globals := fun k => match k with
  | Key.locale => some (JsValue.num 1)
  | _ => none

/-- An announcement whose entry for theme is explicitly undefined. -/
def gUndefTheme : Globals := fun k => match k with
  | Key.theme => some JsValue.undef
  | _ => none

/-- An announcement whose entry for toolOutput is null. -/
def gNullOut : Globals := fun k => match k with
  | Key.toolOutput => some JsValue.null
  | _ => none

/-- A concrete tool name. -/
def toolX : String := "x"

/-- A host callTool implementation that succeeds with the payload num 3. -/
def fOk : String → JsValue → Except JsError JsValue :=
  fun _ _ => Except.ok (JsValue.num 3)

/-- A host whose callTool is fOk. -/
def hostOk : OpenAi := { bag := emptyBag, callTool := some fOk }

/-- A host callTool implementation that rejects with the thrown value
num 7. -/
def fErr : String → JsValue → Except JsError JsValue :=
  fun _ _ => Except.error (JsError.thrown (JsValue.num 7))

/-- A host whose callTool is fErr. -/
def hostErr : OpenAi := { bag := emptyBag, callTool := some fErr }

/- Helper lemmas. -/

/-- When the snapshot reads as undefined for the key, the listener body
does not invoke onChange. -/
theorem handleSetGlobal_eq_false {k : Key} {g : Globals}
    (h : jsGet g k = JsValue.undef) : handleSetGlobal k g = false := by
  unfold handleSetGlobal
  rw [h]

/-- The fresh subscriber of subscribe(k) is not among the notified ids
when its listener body does not fire, provided the prior registry is
well-formed. -/
theorem fresh_not_notified {st : BridgeState} (hwf : Wf st) {k : Key}
    {g : Globals} (hfalse : handleSetGlobal k g = false) :
    (subscribe k st).2 ∉ notified (subscribe k st).1.listeners g := by
  intro hmem
  simp only [subscribe, notified, List.mem_map, List.mem_filter,
    List.mem_append, List.mem_singleton] at hmem
  obtain ⟨l, ⟨hl, hp⟩, hid⟩ := hmem
  rcases hl with hl | hl
  · exact absurd hid (Nat.ne_of_lt (hwf l hl))
  · subst hl
    rw [hfalse] at hp
    cases hp

/-- The empty initial state satisfies the registry invariant. -/
theorem wf_st0 : Wf st0 := by
  intro l hl
  simp [st0] at hl

/-- C1: key isolation.  For distinct keys k1 and k2, delivering an
announcement whose snapshot contains an entry only for k2 makes the
listener body for k1 return without invoking onChange, and the subscriber
registered by subscribe(k1) is not among the notified ids. -/
theorem key_isolation (k1 k2 : Key) (hne : k1 ≠ k2) (g : Globals)
    (hg : ∀ k, k ≠ k2 → g k = none) (st : BridgeState) (hwf : Wf st) :
    handleSetGlobal k1 g = false ∧
    (subscribe k1 st).2 ∉ (deliver g (subscribe k1 st).1).2 := by
  have h1 : jsGet g k1 = JsValue.undef := by
    rw [jsGet, hg k1 hne]
    rfl
  have hf := handleSetGlobal_eq_false h1
  exact ⟨hf, fresh_not_notified hwf hf⟩

/-- Witness for C1 at the concrete keys theme and locale, the announcement
gLoc carrying only locale, and the empty initial state st0. -/
theorem key_isolation_witness :
    Key.theme ≠ Key.locale ∧ (∀ k, k ≠ Key.locale → gLoc k = none) ∧ Wf st0 ∧
    (handleSetGlobal Key.theme gLoc = false ∧
     (subscribe Key.theme st0).2 ∉ (deliver gLoc (subscribe Key.theme st0).1).2) :=
  ⟨by decide, by decide, wf_st0,
   key_isolation Key.theme Key.locale (by decide) gLoc (by decide) st0 wf_st0⟩

/-- C2: no-value suppression.  When the snapshot entry for k is explicitly
undefined, the listener body for k returns without invoking onChange, the
subscriber registered by subscribe(k) is not among the notified ids, and a
subsequent getSnapshot(k) still reports undefined (the bag having been
assigned the announced undefined by the host). -/
theorem no_value_suppression (k : Key) (g : Globals)
    (hg : g k = some JsValue.undef) (st : BridgeState) (hwf : Wf st)
    (o : OpenAi) (ho : st.openai = some o) :
    handleSetGlobal k g = false ∧
    (subscribe k st).2 ∉ (deliver g (subscribe k st).1).2 ∧
    getSnapshot (deliver g (subscribe k st).1).1.openai k =
      Except.ok JsValue.undef := by
  have h1 : jsGet g k = JsValue.undef := by
    rw [jsGet, hg]
    rfl
  have hf := handleSetGlobal_eq_false h1
  refine ⟨hf, fresh_not_notified hwf hf, ?_⟩
  simp [deliver, subscribe, getSnapshot, applyGlobals, jsGet, ho, hg]

/-- Witness for C2 at key theme, the announcement gUndefTheme whose theme
entry is explicitly undefined, and the initial state st0. -/
theorem no_value_suppression_witness :
    gUndefTheme Key.theme = some JsValue.undef ∧ Wf st0 ∧
    st0.openai = some openai0 ∧
    (handleSetGlobal Key.theme gUndefTheme = false ∧
     (subscribe Key.theme st0).2 ∉
       (deliver gUndefTheme (subscribe Key.theme st0).1).2 ∧
     getSnapshot (deliver gUndefTheme (subscribe Key.theme st0).1).1.openai
       Key.theme = Except.ok JsValue.undef) :=
  ⟨rfl, wf_st0, rfl,
   no_value_suppression Key.theme gUndefTheme rfl st0 wf_st0 openai0 rfl⟩

/-- C10: suppression applies only to the undefined sentinel.  When the
snapshot entry for k is null (explicitly present), the listener body for k
does invoke onChange, and the subscriber registered by subscribe(k) is
among the notified ids. -/
theorem null_value_notifies (k : Key) (g : Globals)
    (hg : g k = some JsValue.null) (st : BridgeState) :
    handleSetGlobal k g = true ∧
    (subscribe k st).2 ∈ (deliver g (subscribe k st).1).2 := by
  have ht : handleSetGlobal k g = true := by
    unfold handleSetGlobal
    rw [jsGet, hg]
    rfl
  refine ⟨ht, ?_⟩
  simp only [deliver, subscribe, notified, List.mem_map, List.mem_filter,
    List.mem_append, List.mem_singleton]
  exact ⟨⟨st.nextId, k⟩, ⟨Or.inr rfl, ht⟩, rfl⟩

/-- Witness for C10 at key toolOutput, the announcement gNullOut whose
toolOutput entry is null, and the initial state st0. -/
theorem null_value_notifies_witness :
    gNullOut Key.toolOutput = some JsValue.null ∧
    (handleSetGlobal Key.toolOutput gNullOut = true ∧
     (subscribe Key.toolOutput st0).2 ∈
       (deliver gNullOut (subscribe Key.toolOutput st0).1).2) :=
  ⟨rfl, null_value_notifies Key.toolOutput gNullOut rfl st0⟩

/-- C8: unsubscribe finality.  Calling the unsubscribe action returned by
subscribe(k) removes exactly the installed listener, restoring the prior
registry; afterwards no delivery of any announcement, from any later state
with that registry, ever notifies that subscriber again. -/
theorem unsubscribe_final (k : Key) (st : BridgeState) (hwf : Wf st) :
    (unsubscribe (subscribe k st).2 (subscribe k st).1).listeners =
      st.listeners ∧
    ∀ g : Globals, ∀ st2 : BridgeState,
      st2.listeners =
          (unsubscribe (subscribe k st).2 (subscribe k st).1).listeners →
      (subscribe k st).2 ∉ (deliver g st2).2 := by
  have hself :
      (unsubscribe (subscribe k st).2 (subscribe k st).1).listeners =
        st.listeners := by
    simp only [unsubscribe, subscribe, List.filter_append]
    have h1 : st.listeners.filter (fun l => l.id != st.nextId) =
        st.listeners := by
      refine List.filter_eq_self.mpr (fun l hl => ?_)
      exact bne_iff_ne.mpr (Nat.ne_of_lt (hwf l hl))
    rw [h1]
    simp
  refine ⟨hself, fun g st2 hl2 hmem => ?_⟩
  rw [hself] at hl2
  simp only [deliver, notified, List.mem_map, List.mem_filter, hl2,
    subscribe] at hmem
  obtain ⟨l, ⟨hl, _⟩, hid⟩ := hmem
  exact absurd hid (Nat.ne_of_lt (hwf l hl))

/-- Witness for C8: subscribing on theme in st0, unsubscribing, then
delivering an announcement that does carry theme. -/
theorem unsubscribe_final_witness :
    Wf st0 ∧
    ((unsubscribe (subscribe Key.theme st0).2
        (subscribe Key.theme st0).1).listeners = st0.listeners ∧
     (subscribe Key.theme st0).2 ∉
       (deliver gUndefTheme
         (unsubscribe (subscribe Key.theme st0).2
           (subscribe Key.theme st0).1)).2) :=
  ⟨wf_st0, by
    have h := unsubscribe_final Key.theme st0 wf_st0
    exact ⟨h.1, h.2 gUndefTheme
      (unsubscribe (subscribe Key.theme st0).2 (subscribe Key.theme st0).1)
      rfl⟩⟩

/-- C9: frame.  subscribe and unsubscribe leave window.openai untouched,
and the bag change produced by a delivery is exactly the host-side
assignment of the announced entries, independent of which listeners are
registered: the listeners themselves write nothing.  getSnapshot is
embedded as a pure read and by construction changes no state; the only
host-affecting operation, refreshTool, acts solely through its delegated
call trace. -/
theorem frame_bag_preserved (k : Key) (i : Nat) (st : BridgeState)
    (g : Globals) (L : List Subscriber) :
    (subscribe k st).1.openai = st.openai ∧
    (unsubscribe i st).openai = st.openai ∧
    (deliver g st).1.openai =
      st.openai.map (fun o => { o with bag := applyGlobals g o.bag }) ∧
    (deliver g { st with listeners := L }).1.openai =
      (deliver g st).1.openai :=
  ⟨rfl, rfl, rfl, rfl⟩

/-- C5: getSnapshot(k) returns exactly the value currently stored under k
in the live bag of window.openai, untransformed (for structured values the
very same reference identity), and after a delivery whose announcement
carries no entry for k the read returns the identical value as before. -/
theorem getSnapshot_exact (st : BridgeState) (o : OpenAi)
    (ho : st.openai = some o) (k : Key) :
    getSnapshot st.openai k = Except.ok (jsGet o.bag k) ∧
    ∀ g : Globals, g k = none →
      getSnapshot (deliver g st).1.openai k = getSnapshot st.openai k := by
  constructor
  · rw [ho]
    rfl
  · intro g hg
    simp [deliver, getSnapshot, ho, jsGet, applyGlobals, hg]

/-- Witness for C5 at key theme in the initial state st0, across a
delivery of gLoc, which carries no entry for theme. -/
theorem getSnapshot_exact_witness :
    st0.openai = some openai0 ∧ gLoc Key.theme = none ∧
    (getSnapshot st0.openai Key.theme =
       Except.ok (jsGet openai0.bag Key.theme) ∧
     getSnapshot (deliver gLoc st0).1.openai Key.theme =
       getSnapshot st0.openai Key.theme) :=
  ⟨rfl, rfl, by
    have h := getSnapshot_exact st0 openai0 rfl Key.theme
    exact ⟨h.1, h.2 gLoc rfl⟩⟩

/-- C3 counterexample: the claim asserts refreshTool also resolves
normally when window.openai exists but its callTool method does not.  At
the concrete host openai0 (present, callTool missing), the optional chain
guards only window.openai itself, so invoking the missing method raises a
TypeError instead of resolving. -/
theorem refreshTool_missing_method_raises :
    refreshTool (some openai0) toolX (JsValue.obj 0) =
      (Except.error JsError.typeError, []) := rfl

/-- C3 (amended): when window.openai is absent, refreshTool resolves
normally, makes no delegated host call, and has no side effect on the
global state bag. -/
theorem refreshTool_absent_host (name : String) (args : JsValue) :
    refreshTool none name args = (Except.ok (), []) := rfl

/-- C4 counterexample: the claim asserts getSnapshot never raises even
when window.openai is absent.  At the concrete absent host, the property
access window.openai[key] raises a TypeError instead of returning the
sentinel. -/
theorem getSnapshot_absent_host_raises :
    getSnapshot none Key.theme = Except.error JsError.typeError := rfl

/-- C4 (amended): getSnapshot(k) never raises when window.openai is
present, returning whatever the bag holds (the undefined sentinel for an
unset slot); when window.openai is absent the read raises a TypeError. -/
theorem getSnapshot_present_total (o : OpenAi) (k : Key) :
    getSnapshot (some o) k = Except.ok (jsGet o.bag k) ∧
    getSnapshot (none : Option OpenAi) k = Except.error JsError.typeError :=
  ⟨rfl, rfl⟩

/-- C6: when the host capability is present, refreshTool delegates to the
host callTool with the very same name and args (the trace records exactly
one call, with both unmodified), and on success its result is the unit
value: the host result payload r is never exposed to the caller. -/
theorem refreshTool_delegates (o : OpenAi)
    (f : String → JsValue → Except JsError JsValue)
    (hf : o.callTool = some f) (name : String) (args : JsValue)
    (r : JsValue) (hr : f name args = Except.ok r) :
    refreshTool (some o) name args = (Except.ok (), [(name, args)]) := by
  simp [refreshTool, hf, hr, Except.map]

/-- Witness for C6: a host whose callTool succeeds with payload num 3; the
payload does not appear in the result. -/
theorem refreshTool_delegates_witness :
    hostOk.callTool = some fOk ∧
    fOk toolX (JsValue.obj 0) = Except.ok (JsValue.num 3) ∧
    refreshTool (some hostOk) toolX (JsValue.obj 0) =
      (Except.ok (), [(toolX, JsValue.obj 0)]) :=
  ⟨rfl, rfl,
   refreshTool_delegates hostOk fOk rfl toolX (JsValue.obj 0)
     (JsValue.num 3) rfl⟩

/-- C7: when the host callTool rejects, refreshTool rejects with the very
same failure value e, unwrapped and unreclassified, after having delegated
the call. -/
theorem refreshTool_propagates_failure (o : OpenAi)
    (f : String → JsValue → Except JsError JsValue)
    (hf : o.callTool = some f) (name : String) (args : JsValue)
    (e : JsError) (he : f name args = Except.error e) :
    refreshTool (some o) name args = (Except.error e, [(name, args)]) := by
  simp [refreshTool, hf, he, Except.map]

/-- Witness for C7: a host whose callTool rejects with the thrown value
num 7; refreshTool rejects with exactly that failure. -/
theorem refreshTool_propagates_failure_witness :
    hostErr.callTool = some fErr ∧
    fErr toolX (JsValue.obj 0) =
      Except.error (JsError.thrown (JsValue.num 7)) ∧
    refreshTool (some hostErr) toolX (JsValue.obj 0) =
      (Except.error (JsError.thrown (JsValue.num 7)),
       [(toolX, JsValue.obj 0)]) :=
  ⟨rfl, rfl,
   refreshTool_propagates_failure hostErr fErr rfl toolX (JsValue.obj 0)
     (JsError.thrown (JsValue.num 7)) rfl⟩
